import Mathlib

/-
Verification of the blockdev driver (src/blockdev.c): a shallow embedding of
its request data path (do_request, my_queue_rq) and its lifecycle functions
(init_fn, cleanup_fn), with theorems settling the specified properties.

Machine-integer conventions: `unsigned int` values are Nat taken modulo 2^32,
`loff_t` / `sector_t` values are Nat taken modulo 2^64 (the offsets that occur
here are small and nonnegative, so the signedness of loff_t never matters).
-/

namespace Blockdev

/-- Constant NR_SECTORS from the source: advertised capacity in sectors. -/
def NR_SECTORS : Nat := 1024

/-- Constant K_SECTOR_SIZE from the source: bytes per sector. -/
def K_SECTOR_SIZE : Nat := 512

/-- Constant BUFFER_SIZE from the source: size in bytes of the backing buffer
dev->data allocated by kmalloc in init_fn. -/
def BUFFER_SIZE : Nat := 8

/-- Kernel constant SECTOR_SHIFT: log2 of the 512-byte kernel sector. -/
def SECTOR_SHIFT : Nat := 9

/-- Modulus for `unsigned int` (nr_bytes in my_queue_rq / do_request). -/
def U32 : Nat := 2 ^ 32

/-- Modulus for 64-bit offsets (loff_t offset in do_request). -/
def U64 : Nat := 2 ^ 64

/-- One scatter-gather segment (struct bio_vec): the bytes of the memory
region the host supplies for this segment (page contents starting at
bv_offset, bv_len bytes long). -/
structure BioVec where
  bytes : List Nat
deriving DecidableEq, Repr

/-- bv_len of a segment: the length of its memory region. -/
def BioVec.bv_len (b : BioVec) : Nat := b.bytes.length

/-- Data direction of a request (rq_data_dir): READ or WRITE. -/
inductive Dir where
  | read
  | write
deriving DecidableEq, Repr

/-- One queued request (struct request), at the boundary the dispatcher
consumes: starting sector (blk_rq_pos), direction (rq_data_dir), and the
finite ordered sequence of segments produced by rq_for_each_segment. -/
structure Request where
  pos : Nat
  dir : Dir
  segments : List BioVec
deriving DecidableEq, Repr

/-- Sum of the segment lengths of a list of segments. -/
def sumLens (segs : List BioVec) : Nat := (segs.map BioVec.bv_len).sum

/-- The device-byte offset computed by do_request from the starting sector:
loff_t offset = blk_rq_pos(rq) << SECTOR_SHIFT, as a 64-bit value. -/
def req_offset (rq : Request) : Nat := (rq.pos <<< SECTOR_SHIFT) % U64

/-- State threaded through the rq_for_each_segment loop of do_request:
the running offset cursor, the accumulated *nr_bytes, the contents of the
backing buffer dev->data (threaded so that any access to it would show up;
the loop body of the source contains none), and a ghost trace recording the
segments in the order the loop visits them (instrumentation only: no other
field depends on it). -/
structure DoReqState where
  offset : Nat
  nrBytes : Nat
  store : List Nat
  processed : List BioVec
deriving DecidableEq, Repr

/-- Body of the rq_for_each_segment loop in do_request. The source computes
data = page_address(bvec.bv_page) + bvec.bv_offset (a pointer into the
segment memory, never used afterwards), data_len = bvec.bv_len, branches on
rq_data_dir(rq) only to printk a log line, then advances
offset += data_len and *nr_bytes += data_len. No byte of dev->data and no
byte of the segment memory is read or written. -/
def do_request_body (s : DoReqState) (bvec : BioVec) : DoReqState :=
  let data_len := bvec.bv_len
  { offset := (s.offset + data_len) % U64
    nrBytes := (s.nrBytes + data_len) % U32
    store := s.store
    processed := s.processed ++ [bvec] }

/-- do_request from the source: sets offset from the starting sector, iterates
the segments with rq_for_each_segment accumulating into *nr_bytes, and
returns 0. nrBytes0 is the value behind the nr_bytes pointer at entry
(my_queue_rq passes 0); the backing-buffer contents are threaded through. -/
def do_request (rq : Request) (store : List Nat) (nrBytes0 : Nat) :
    Int × DoReqState :=
  let offset := req_offset rq
  let final := rq.segments.foldl do_request_body
    { offset := offset, nrBytes := nrBytes0, store := store, processed := [] }
  (0, final)

/-- Completion status values used by my_queue_rq: BLK_STS_OK and
BLK_STS_IOERR. -/
inductive BlkStatus where
  | ok
  | ioerr
deriving DecidableEq, Repr

/-- Calls my_queue_rq makes into the host queue, in order: blk_mq_start_request
(markStarted), blk_update_request (reportBytesAndStatus), BUG() when the
update call reports the request incomplete, and __blk_mq_end_request
(signalCompletion). -/
inductive HostCall where
  | markStarted
  | reportBytesAndStatus (bytes : Nat) (status : BlkStatus)
  | bugCrash
  | signalCompletion (status : BlkStatus)
deriving DecidableEq, Repr

/-- blk_rq_bytes: total data size of the request in bytes, an unsigned int;
the sum of the bv_len of its segments. -/
def blk_rq_bytes (rq : Request) : Nat := sumLens rq.segments % U32

/-- Host-subsystem call blk_update_request(rq, status, nr_bytes), modeled at
the interface boundary from its kernel contract: it completes nr_bytes bytes
of the request and returns true exactly when bytes of the request remain
uncompleted afterwards (my_queue_rq treats true as fatal and calls BUG). -/
def blk_update_request (rq : Request) (nrBytes : Nat) : Bool :=
  decide (nrBytes < blk_rq_bytes rq)

/-- Outcome of one my_queue_rq invocation: the returned status, the final
nr_bytes, the backing-buffer contents afterwards, the ghost segment order
trace, and the ordered trace of host-queue calls made. -/
structure RqOutcome where
  status : BlkStatus
  nrBytes : Nat
  store : List Nat
  processed : List BioVec
  trace : List HostCall
deriving DecidableEq, Repr

/-- my_queue_rq from the source, the queue_rq callback: starts the request
(blk_mq_start_request), serves it with do_request on a nr_bytes counter
initialized to 0, sets status to BLK_STS_IOERR when do_request returns
nonzero, notifies blk-mq of the processed bytes with blk_update_request
(BUG() if that reports the request incomplete), and ends the request with
__blk_mq_end_request carrying the final status. -/
def my_queue_rq (rq : Request) (store : List Nat) : RqOutcome :=
  let nr_bytes : Nat := 0
  let rr := do_request rq store nr_bytes
  let s := rr.2
  let status := if rr.1 ≠ 0 then BlkStatus.ioerr else BlkStatus.ok
  let t1 := [HostCall.markStarted, HostCall.reportBytesAndStatus s.nrBytes status]
  if blk_update_request rq s.nrBytes then
    { status := status, nrBytes := s.nrBytes, store := s.store
      processed := s.processed, trace := t1 ++ [HostCall.bugCrash] }
  else
    { status := status, nrBytes := s.nrBytes, store := s.store
      processed := s.processed, trace := t1 ++ [HostCall.signalCompletion status] }

/- ===== lifecycle: init_fn and cleanup_fn ===== -/

/-- Errno constant EBUSY. -/
def EBUSY : Int := 16

/-- Errno constant ENOMEM. -/
def ENOMEM : Int := 12

/-- Resource-management calls init_fn and cleanup_fn can make, acquisition and
release sides. -/
inductive SetupAct where
  | registerBlkdev
  | allocDisk
  | initQueue
  | kmallocData
  | addDisk
  | delGendisk
  | putDisk
  | freeTagSet
  | cleanupQueue
  | kfreeData
  | unregisterBlkdev
deriving DecidableEq, Repr

/-- Nullness of the pointer fields of struct my_block_dev that the lifecycle
code branches on: gd (the gendisk), queue (the request queue), data (the
backing buffer). The tag_set, lock and size members carry no pointer the
lifecycle code tests, so they are not modeled. -/
structure my_block_dev where
  gd : Bool
  queue : Bool
  data : Bool
deriving DecidableEq, Repr

/-- Label r_disk of init_fn: unregister_blkdev(major_num, BLOCK_DEV_NAME). -/
def r_disk : List SetupAct := [SetupAct.unregisterBlkdev]

/-- Label r_blk_init of init_fn: del_gendisk if dev->gd is non-null, then
blk_mq_free_tag_set and blk_cleanup_queue if dev->queue is non-null, falling
through to r_disk. -/
def r_blk_init (f : my_block_dev) : List SetupAct :=
  (if f.gd then [SetupAct.delGendisk] else []) ++
    (if f.queue then [SetupAct.freeTagSet, SetupAct.cleanupQueue] else []) ++
    r_disk

/-- Result of one init_fn run: the returned status code, the release calls its
error paths made (in order), the descriptor pointer fields at exit, and
whether add_disk was reached. -/
structure InitResult where
  ret : Int
  releases : List SetupAct
  fields : my_block_dev
  diskAdded : Bool
deriving DecidableEq, Repr

/-- init_fn from the source, acting on the descriptor the global dev points
to. The four Booleans are the outcomes of the fallible host calls:
register_blkdev, alloc_disk, blk_mq_init_sq_queue and kmalloc. The source
checks the first, second and fourth and jumps to its error labels; it does
NOT check the result of blk_mq_init_sq_queue and continues regardless. The
geometry and field assignments (major, first_minor, fops, queue, private_data,
disk_name, capacity, size) touch no fallible resource and are elided. -/
def init_fn (regOk diskOk queueOk kmallocOk : Bool) : InitResult :=
  if regOk = false then
    { ret := -EBUSY, releases := []
      fields := { gd := false, queue := false, data := false }
      diskAdded := false }
  else
    if diskOk = false then
      { ret := -ENOMEM, releases := r_disk
        fields := { gd := false, queue := false, data := false }
        diskAdded := false }
    else
      let f1 : my_block_dev := { gd := true, queue := queueOk, data := false }
      if kmallocOk = false then
        { ret := -ENOMEM, releases := r_blk_init f1, fields := f1
          diskAdded := false }
      else
        { ret := 0, releases := []
          fields := { gd := true, queue := queueOk, data := true }
          diskAdded := true }

/-- cleanup_fn from the source: del_gendisk and put_disk if dev->gd is
non-null, blk_mq_free_tag_set and blk_cleanup_queue if dev->queue is
non-null, then kfree(dev->data) and unregister_blkdev unconditionally.
Returns the ordered list of release calls made. -/
def cleanup_fn (f : my_block_dev) : List SetupAct :=
  (if f.gd then [SetupAct.delGendisk, SetupAct.putDisk] else []) ++
    (if f.queue then [SetupAct.freeTagSet, SetupAct.cleanupQueue] else []) ++
    [SetupAct.kfreeData, SetupAct.unregisterBlkdev]

/-- Descriptor pointer fields after the first n acquisition steps of setup
have completed (the order in which init_fn acquires them): step 1 registers
the device number, step 2 allocates the gendisk, step 3 creates the queue and
tag set, step 4 allocates the backing buffer, step 5 publishes the disk. -/
def stateAfterSteps (n : Nat) : my_block_dev :=
  { gd := decide (2 ≤ n), queue := decide (3 ≤ n), data := decide (4 ≤ n) }

/-- Whether the device number is registered after the first n setup steps. -/
def registeredAfterSteps (n : Nat) : Bool := decide (1 ≤ n)

/-- Global variable struct my_block_dev *dev of the source: a file-scope
pointer, zero-initialized by the C runtime and never assigned anywhere in the
file, so it holds the null pointer whenever init_fn runs. -/
def dev : Option my_block_dev := none

/-- init_fn as actually executed through the global dev: register_blkdev runs
first (it does not touch dev), then the line dev->gd = alloc_disk(1)
dereferences dev; dereferencing the null pointer is modeled as none (a
kernel oops), otherwise the run proceeds as init_fn on the pointed-to
descriptor. -/
def init_fn_exec (regOk diskOk queueOk kmallocOk : Bool) : Option InitResult :=
  if regOk = false then
    some { ret := -EBUSY, releases := []
           fields := { gd := false, queue := false, data := false }
           diskAdded := false }
  else
    match dev with
    | none => none
    | some _ => some (init_fn regOk diskOk queueOk kmallocOk)

/- ===== helper lemmas about the data path ===== -/

theorem do_request_body_foldl (segs : List BioVec) (s : DoReqState)
    (h1 : s.offset < U64) (h2 : s.nrBytes < U32) :
    segs.foldl do_request_body s =
      { offset := (s.offset + sumLens segs) % U64
        nrBytes := (s.nrBytes + sumLens segs) % U32
        store := s.store
        processed := s.processed ++ segs } := by
  induction segs generalizing s with
  | nil =>
    simp [sumLens, Nat.mod_eq_of_lt h1, Nat.mod_eq_of_lt h2]
  | cons hd tl ih =>
    rw [List.foldl_cons, ih]
    · simp only [do_request_body, sumLens, List.map_cons, List.sum_cons,
        DoReqState.mk.injEq]
      refine ⟨?_, ?_, trivial, ?_⟩
      · rw [Nat.mod_add_mod, Nat.add_assoc]
      · rw [Nat.mod_add_mod, Nat.add_assoc]
      · simp
    · exact Nat.mod_lt _ (by norm_num [U64])
    · exact Nat.mod_lt _ (by norm_num [U32])

theorem U64_pos : 0 < U64 := by norm_num [U64]

theorem U32_pos : 0 < U32 := by norm_num [U32]

theorem do_request_spec (rq : Request) (store : List Nat) :
    do_request rq store 0 =
      (0, { offset := (req_offset rq + sumLens rq.segments) % U64
            nrBytes := sumLens rq.segments % U32
            store := store
            processed := rq.segments }) := by
  simp only [do_request, req_offset]
  rw [do_request_body_foldl]
  · simp [req_offset]
  · exact Nat.mod_lt _ U64_pos
  · exact U32_pos

theorem my_queue_rq_spec (rq : Request) (store : List Nat) :
    my_queue_rq rq store =
      { status := BlkStatus.ok
        nrBytes := sumLens rq.segments % U32
        store := store
        processed := rq.segments
        trace := [HostCall.markStarted,
                  HostCall.reportBytesAndStatus (sumLens rq.segments % U32) BlkStatus.ok,
                  HostCall.signalCompletion BlkStatus.ok] } := by
  simp only [my_queue_rq]
  rw [do_request_spec]
  simp [blk_update_request, blk_rq_bytes]

/- ===== claim theorems ===== -/

/-- C1: evaluation of the code at the spec failing input. Scenario A of the
spec: a write request at sector 0 with one segment of 8 bytes. The dispatcher
reports success and 8 bytes, but the backing store is left exactly as it was
(here all zeros) and its first 8 bytes do NOT equal the segment content: the
loop body of do_request performs no copy in either direction, contradicting
the claim. -/
theorem C1_write_copies_nothing :
    (my_queue_rq { pos := 0, dir := Dir.write, segments := [⟨[1, 2, 3, 4, 5, 6, 7, 8]⟩] }
        (List.replicate 8 0)).status = BlkStatus.ok ∧
    (my_queue_rq { pos := 0, dir := Dir.write, segments := [⟨[1, 2, 3, 4, 5, 6, 7, 8]⟩] }
        (List.replicate 8 0)).nrBytes = 8 ∧
    (my_queue_rq { pos := 0, dir := Dir.write, segments := [⟨[1, 2, 3, 4, 5, 6, 7, 8]⟩] }
        (List.replicate 8 0)).store = List.replicate 8 0 ∧
    ((my_queue_rq { pos := 0, dir := Dir.write, segments := [⟨[1, 2, 3, 4, 5, 6, 7, 8]⟩] }
        (List.replicate 8 0)).store.take 8 ≠ [1, 2, 3, 4, 5, 6, 7, 8]) := by
  decide

/-- C2: for every request with segments of lengths L1..Lk whose sum fits the
unsigned int counter, the byte total reported back to the host queue (both
the final nr_bytes and the bytes argument of the blk_update_request call in
the trace) equals L1 + ... + Lk. In this code no segment transfer can fail,
so the success proviso of the claim always holds. -/
theorem C2_byte_count_accounting (rq : Request) (store : List Nat)
    (h : sumLens rq.segments < U32) :
    (my_queue_rq rq store).nrBytes = sumLens rq.segments ∧
    HostCall.reportBytesAndStatus (sumLens rq.segments) (my_queue_rq rq store).status ∈
      (my_queue_rq rq store).trace := by
  rw [my_queue_rq_spec]
  simp [Nat.mod_eq_of_lt h]

/-- Witness for C2 at a concrete two-segment request of lengths 3 and 2. -/
theorem C2_byte_count_accounting_witness :
    (my_queue_rq { pos := 0, dir := Dir.write, segments := [⟨[1, 2, 3]⟩, ⟨[4, 5]⟩] }
        (List.replicate 8 0)).nrBytes = sumLens [⟨[1, 2, 3]⟩, ⟨[4, 5]⟩] ∧
    HostCall.reportBytesAndStatus (sumLens [⟨[1, 2, 3]⟩, ⟨[4, 5]⟩])
        (my_queue_rq { pos := 0, dir := Dir.write, segments := [⟨[1, 2, 3]⟩, ⟨[4, 5]⟩] }
          (List.replicate 8 0)).status ∈
      (my_queue_rq { pos := 0, dir := Dir.write, segments := [⟨[1, 2, 3]⟩, ⟨[4, 5]⟩] }
        (List.replicate 8 0)).trace :=
  C2_byte_count_accounting _ _ (by decide)

/-- C3 counterexample: a request whose offset plus length exceeds the 8-byte
backing store (sector 0, one segment of 16 bytes) does NOT complete with the
I/O-error status: do_request always returns 0, so my_queue_rq completes it
with BLK_STS_OK, refuting the claim as stated. -/
theorem C3_counterexample :
    BUFFER_SIZE <
      req_offset { pos := 0, dir := Dir.write, segments := [⟨List.replicate 16 7⟩] } +
        sumLens [(⟨List.replicate 16 7⟩ : BioVec)] ∧
    (my_queue_rq { pos := 0, dir := Dir.write, segments := [⟨List.replicate 16 7⟩] }
        (List.replicate 8 0)).status = BlkStatus.ok ∧
    (my_queue_rq { pos := 0, dir := Dir.write, segments := [⟨List.replicate 16 7⟩] }
        (List.replicate 8 0)).status ≠ BlkStatus.ioerr := by
  decide

/-- C3 amended: a request whose computed offset plus total length falls
outside the backing-store bounds completes with the SUCCESS status (not an
error status), the dispatcher does not crash (no BUG in the host-call trace),
no region of the backing store is corrupted (it is unchanged), and any
subsequent request sees exactly the behavior it would have seen before. -/
theorem C3_out_of_bounds_contained (rq : Request) (store : List Nat)
    (h : BUFFER_SIZE < req_offset rq + sumLens rq.segments) :
    (my_queue_rq rq store).status = BlkStatus.ok ∧
    HostCall.bugCrash ∉ (my_queue_rq rq store).trace ∧
    (my_queue_rq rq store).store = store ∧
    ∀ rq2 : Request, my_queue_rq rq2 (my_queue_rq rq store).store = my_queue_rq rq2 store := by
  rw [my_queue_rq_spec]
  simp

/-- Witness for C3 amended at the out-of-bounds request of the
counterexample. -/
theorem C3_out_of_bounds_contained_witness :
    (my_queue_rq { pos := 0, dir := Dir.write, segments := [⟨List.replicate 16 7⟩] }
        (List.replicate 8 0)).status = BlkStatus.ok ∧
    HostCall.bugCrash ∉
      (my_queue_rq { pos := 0, dir := Dir.write, segments := [⟨List.replicate 16 7⟩] }
        (List.replicate 8 0)).trace ∧
    (my_queue_rq { pos := 0, dir := Dir.write, segments := [⟨List.replicate 16 7⟩] }
        (List.replicate 8 0)).store = List.replicate 8 0 ∧
    ∀ rq2 : Request,
      my_queue_rq rq2
          (my_queue_rq { pos := 0, dir := Dir.write, segments := [⟨List.replicate 16 7⟩] }
            (List.replicate 8 0)).store =
        my_queue_rq rq2 (List.replicate 8 0) :=
  C3_out_of_bounds_contained _ _ (by decide)

/-- C4: the initial device-byte offset computed by do_request equals the
starting sector shifted left by SECTOR_SHIFT, the segments are processed
exactly in the order the host iteration supplies them (the ghost processing
trace equals the segment list), and the final offset equals the initial
offset plus the sum of the segment lengths, under the 64-bit bound that makes
the shifted arithmetic exact. -/
theorem C4_offset_advancement (rq : Request) (store : List Nat)
    (h : rq.pos <<< SECTOR_SHIFT + sumLens rq.segments < U64) :
    req_offset rq = rq.pos <<< SECTOR_SHIFT ∧
    (do_request rq store 0).2.processed = rq.segments ∧
    (do_request rq store 0).2.offset = req_offset rq + sumLens rq.segments := by
  have h1 : rq.pos <<< SECTOR_SHIFT < U64 := lt_of_le_of_lt (Nat.le_add_right _ _) h
  have hro : req_offset rq = rq.pos <<< SECTOR_SHIFT := by
    unfold req_offset
    exact Nat.mod_eq_of_lt h1
  refine ⟨hro, ?_, ?_⟩
  · rw [do_request_spec]
  · rw [do_request_spec, hro]
    exact Nat.mod_eq_of_lt h

/-- Witness for C4 at a concrete read request starting at sector 2 with
segments of lengths 2 and 1. -/
theorem C4_offset_advancement_witness :
    req_offset { pos := 2, dir := Dir.read, segments := [⟨[9, 9]⟩, ⟨[1]⟩] } =
      2 <<< SECTOR_SHIFT ∧
    (do_request { pos := 2, dir := Dir.read, segments := [⟨[9, 9]⟩, ⟨[1]⟩] }
        (List.replicate 8 0) 0).2.processed = [⟨[9, 9]⟩, ⟨[1]⟩] ∧
    (do_request { pos := 2, dir := Dir.read, segments := [⟨[9, 9]⟩, ⟨[1]⟩] }
        (List.replicate 8 0) 0).2.offset =
      req_offset { pos := 2, dir := Dir.read, segments := [⟨[9, 9]⟩, ⟨[1]⟩] } +
        sumLens [(⟨[9, 9]⟩ : BioVec), ⟨[1]⟩] :=
  C4_offset_advancement _ _ (by decide)

/-- C5: a request with zero segments completes with the success status,
reports zero bytes, and the zero byte count is what the report call in the
trace carries. -/
theorem C5_zero_segments (rq : Request) (store : List Nat)
    (h : rq.segments = []) :
    (my_queue_rq rq store).status = BlkStatus.ok ∧
    (my_queue_rq rq store).nrBytes = 0 ∧
    HostCall.reportBytesAndStatus 0 BlkStatus.ok ∈ (my_queue_rq rq store).trace := by
  rw [my_queue_rq_spec]
  simp [h, sumLens]

/-- Witness for C5 at a concrete zero-segment request. -/
theorem C5_zero_segments_witness :
    (my_queue_rq { pos := 5, dir := Dir.read, segments := [] }
        (List.replicate 8 0)).status = BlkStatus.ok ∧
    (my_queue_rq { pos := 5, dir := Dir.read, segments := [] }
        (List.replicate 8 0)).nrBytes = 0 ∧
    HostCall.reportBytesAndStatus 0 BlkStatus.ok ∈
      (my_queue_rq { pos := 5, dir := Dir.read, segments := [] }
        (List.replicate 8 0)).trace :=
  C5_zero_segments _ _ rfl

/-- C6: for every request, the trace of host-queue calls my_queue_rq makes is
exactly markStarted, then reportBytesAndStatus, then signalCompletion, so
each is called exactly once and in that order (the BUG branch is never
taken, because the reported byte count always equals the full request
size). -/
theorem C6_host_call_order (rq : Request) (store : List Nat) :
    (my_queue_rq rq store).trace =
      [HostCall.markStarted,
       HostCall.reportBytesAndStatus (my_queue_rq rq store).nrBytes
         (my_queue_rq rq store).status,
       HostCall.signalCompletion (my_queue_rq rq store).status] := by
  rw [my_queue_rq_spec]

/-- C7 counterexample: when the queue-creation call fails (and every other
host call succeeds), init_fn does not detect it: it releases nothing, does
not report an error status upward, and returns 0 (success), refuting the
claim that a failure at any setup step is unwound and reported. -/
theorem C7_counterexample :
    (init_fn true true false true).ret = 0 ∧
    (init_fn true true false true).releases = [] ∧
    ¬(init_fn true true false true).ret < 0 := by
  decide

/-- C7 amended: setup detects registration failure (returns -EBUSY having
acquired nothing), disk-allocation failure (returns -ENOMEM releasing only
the registration), and backing-store allocation failure (returns -ENOMEM
releasing the disk, then the queue and tag set exactly when the queue was
created, then the registration); queue-creation failure is NOT detected, and
setup then completes reporting success. -/
theorem C7_setup_unwind (regOk diskOk queueOk kmallocOk : Bool) :
    (regOk = false →
      init_fn regOk diskOk queueOk kmallocOk =
        { ret := -EBUSY, releases := []
          fields := { gd := false, queue := false, data := false }
          diskAdded := false }) ∧
    (regOk = true → diskOk = false →
      (init_fn regOk diskOk queueOk kmallocOk).ret = -ENOMEM ∧
      (init_fn regOk diskOk queueOk kmallocOk).releases = [SetupAct.unregisterBlkdev]) ∧
    (regOk = true → diskOk = true → kmallocOk = false →
      (init_fn regOk diskOk queueOk kmallocOk).ret = -ENOMEM ∧
      (init_fn regOk diskOk queueOk kmallocOk).releases =
        SetupAct.delGendisk ::
          ((if queueOk then [SetupAct.freeTagSet, SetupAct.cleanupQueue] else []) ++
            [SetupAct.unregisterBlkdev])) ∧
    (regOk = true → diskOk = true → kmallocOk = true →
      (init_fn regOk diskOk queueOk kmallocOk).ret = 0 ∧
      (init_fn regOk diskOk queueOk kmallocOk).releases = []) := by
  cases regOk <;> cases diskOk <;> cases queueOk <;> cases kmallocOk <;>
    simp [init_fn, r_blk_init, r_disk]

/-- Witness for C7 amended: the backing-store allocation failure branch with
the queue created. -/
theorem C7_setup_unwind_witness :
    (init_fn true true true false).ret = -ENOMEM ∧
    (init_fn true true true false).releases =
      SetupAct.delGendisk ::
        ((if true then [SetupAct.freeTagSet, SetupAct.cleanupQueue] else []) ++
          [SetupAct.unregisterBlkdev]) :=
  (C7_setup_unwind true true true false).2.2.1 rfl rfl rfl

/-- C8 counterexample: teardown called after a zero-step setup (nothing
acquired: no registration, no disk, no queue, no buffer) still performs two
release calls, the unguarded kfree of the backing buffer and the unguarded
device-number deregistration, so it does not release exactly the resources
acquired and not every release is guarded by a was-this-acquired check. -/
theorem C8_counterexample :
    stateAfterSteps 0 = { gd := false, queue := false, data := false } ∧
    registeredAfterSteps 0 = false ∧
    cleanup_fn (stateAfterSteps 0) = [SetupAct.kfreeData, SetupAct.unregisterBlkdev] := by
  decide

/-- C8 amended: after any prefix of the setup steps, teardown releases the
disk exactly when it was acquired and the queue and tag set exactly when they
were acquired (those releases are guarded), performs the backing-buffer free
and the device-number deregistration unconditionally (even after prefixes
that never acquired them; the kernel kfree of a null pointer is a no-op), and
issues no release call twice, so it never double-frees. -/
theorem C8_teardown_releases (n : Nat) :
    ((SetupAct.delGendisk ∈ cleanup_fn (stateAfterSteps n)) ↔ 2 ≤ n) ∧
    ((SetupAct.putDisk ∈ cleanup_fn (stateAfterSteps n)) ↔ 2 ≤ n) ∧
    ((SetupAct.freeTagSet ∈ cleanup_fn (stateAfterSteps n)) ↔ 3 ≤ n) ∧
    ((SetupAct.cleanupQueue ∈ cleanup_fn (stateAfterSteps n)) ↔ 3 ≤ n) ∧
    SetupAct.kfreeData ∈ cleanup_fn (stateAfterSteps n) ∧
    SetupAct.unregisterBlkdev ∈ cleanup_fn (stateAfterSteps n) ∧
    (cleanup_fn (stateAfterSteps n)).Nodup := by
  by_cases h2 : 2 ≤ n <;> by_cases h3 : 3 ≤ n <;>
    simp [cleanup_fn, stateAfterSteps, h2, h3]

/-- C9: evaluation of the code at the failing input. The global descriptor
pointer dev is null (declared, zero-initialized, never assigned), and a setup
run in which every host call succeeds crashes on the first descriptor access
(dev->gd = alloc_disk(1)) instead of proceeding: setup never allocates the
Device Descriptor, refuting the premise that descriptor accesses go through
an allocated pointer. -/
theorem C9_null_descriptor :
    dev = none ∧ init_fn_exec true true true true = none := by
  decide

/-- C10: for every request, whatever its direction, segments or offsets, the
backing buffer contents after my_queue_rq are exactly what they were before:
the data path never writes the backing store (and a fortiori its observable
state never changes). -/
theorem C10_store_unchanged (rq : Request) (store : List Nat) :
    (my_queue_rq rq store).store = store := by
  rw [my_queue_rq_spec]

end Blockdev
